import Mathlib

/-!
Shallow embedding of the aviary CLI front end (`aviary/aviary.py` and
`aviary/config/config.py`): environment-path resolution, argument-schema
composition, logging setup, the `configure` branch, and help formatting.
Definitions follow the Python source; the few repository functions that the
source calls but that are not part of the two files (noted in their doc
comments) are modelled from the specification.
-/

set_option autoImplicit false
set_option maxRecDepth 16384

namespace Aviary

/-! ## Process environment -/

/-- Process environment (`os.environ`) and the persisted key/value store:
an association list from variable names to values; lookup returns the first
binding. -/
abbrev Env := List (String × String)

/-- Environment lookup, `os.environ[k]` (as an `Option`). -/
def envLookup (e : Env) (k : String) : Option String :=
  (e.find? (fun kv => kv.1 == k)).map (fun kv => kv.2)

/-- Assignment `os.environ[k] = v`: bind `k` to `v`, shadowing any previous
binding for `k`. -/
def envSet (e : Env) (k : String) (v : String) : Env :=
  (k, v) :: e.filter (fun kv => kv.1 != k)

theorem envLookup_envSet (e : Env) (k v : String) :
    envLookup (envSet e k v) k = some v := by
  simp [envLookup, envSet]

theorem envLookup_append_of_none (p e : Env) (k : String)
    (h : envLookup p k = none) : envLookup (p ++ e) k = envLookup e k := by
  induction p with
  | nil => rfl
  | cons kv rest ih =>
    by_cases hk : kv.1 == k
    · simp [envLookup, List.find?, hk] at h
    · simp only [envLookup, List.cons_append, List.find?, hk] at h ⊢
      exact ih h

theorem envLookup_append_of_some (p e : Env) (k v : String)
    (h : envLookup p k = some v) : envLookup (p ++ e) k = some v := by
  induction p with
  | nil => simp [envLookup] at h
  | cons kv rest ih =>
    by_cases hk : kv.1 == k
    · simp only [envLookup, List.find?, hk] at h ⊢
      exact h
    · simp only [envLookup, List.cons_append, List.find?, hk] at h ⊢
      exact ih h

/-! ## config.py: interactive path resolution -/

/-- The `IOError` raised by the `SIGALRM` handler installed at the top of
`config.py` (`def handler(signum, frame): raise IOError`) when the 20-second
input alarm fires before a line arrives; the specification calls this failure
`ResolutionTimeout` and tags it with the resource key being resolved. -/
inductive ResErr where
  | resolutionTimeout (key : String)
  deriving DecidableEq, Repr

/-- The `signal.alarm(20)` deadline armed in `get_gtdb_path` (config.py
line 27) before the blocking `input` call. -/
def gtdbAlarmSeconds : Nat := 20

/-- The `signal.alarm(20)` deadline armed in `get_conda_path` (config.py
line 47) before the blocking `input` call. -/
def condaAlarmSeconds : Nat := 20

/-- Outcome of one resolver call: the Python return value (`none` models
Python `None`), the process environment afterwards, and whether the
interactive prompt was reached. -/
structure ResolveResult where
  ret : Option String
  env : Env
  prompted : Bool
  deriving DecidableEq, Repr

/-- config.py `get_gtdb_path` (lines 14-29): return
`os.environ["GTDBTK_DATA_PATH"]` when it is set; otherwise print the error
banner, arm a 20-second alarm and block on `input` (`input = none` models no
line arriving before the alarm fires, in which case the `SIGALRM` handler
raises), store the supplied line in `os.environ["GTDBTK_DATA_PATH"]`, and
fall off the end of the `except` block — so the function returns Python
`None` (`ret = none`) on the interactive branch. -/
def get_gtdb_path (env : Env) (input : Option String) : Except ResErr ResolveResult :=
  match envLookup env "GTDBTK_DATA_PATH" with
  | some v => .ok ⟨some v, env, false⟩
  | none =>
    match input with
    | none => .error (.resolutionTimeout "GTDBTK_DATA_PATH")
    | some s => .ok ⟨none, envSet env "GTDBTK_DATA_PATH" s, true⟩

/-- config.py `get_conda_path` (lines 35-49): identical structure to
`get_gtdb_path` for the key `CONDA_ENV_PATH`. -/
def get_conda_path (env : Env) (input : Option String) : Except ResErr ResolveResult :=
  match envLookup env "CONDA_ENV_PATH" with
  | some v => .ok ⟨some v, env, false⟩
  | none =>
    match input with
    | none => .error (.resolutionTimeout "CONDA_ENV_PATH")
    | some s => .ok ⟨none, envSet env "CONDA_ENV_PATH" s, true⟩

/-- Modelled from the spec: `Config.source_conda_env` / `Config.source_bashrc`
(called at the top of `main`, aviary.py lines 103-106) are not under src/.
Per §6 of the spec the persisted store is durable key/value storage "such
that a freshly started session re-sources the same values": sourcing makes
every persisted binding visible in the process environment, persisted
bindings taking precedence for their keys. -/
def sourceEnv (persisted procEnv : Env) : Env := persisted ++ procEnv

/-- `get_gtdb_path` as `main` runs it: the persisted store has already been
sourced into the process environment. -/
def resolveGtdb (persisted procEnv : Env) (input : Option String) :
    Except ResErr ResolveResult :=
  get_gtdb_path (sourceEnv persisted procEnv) input

/-- `get_conda_path` as `main` runs it: the persisted store has already been
sourced into the process environment. -/
def resolveConda (persisted procEnv : Env) (input : Option String) :
    Except ResErr ResolveResult :=
  get_conda_path (sourceEnv persisted procEnv) input

/-! ## Claim C1 -/

/-- Claim C1 counterexample: with `GTDBTK_DATA_PATH` unset and the user
supplying `/data/gtdb` before the deadline, `get_gtdb_path` stores the value
under the key but its return value is Python `None` (`ret = none`), not the
supplied value as the claim states. -/
theorem C1_counterexample :
    get_gtdb_path [] (some "/data/gtdb") =
      .ok ⟨none, [("GTDBTK_DATA_PATH", "/data/gtdb")], true⟩ ∧
    (none : Option String) ≠ some "/data/gtdb" := by
  exact ⟨rfl, by decide⟩

/-- Claim C1 (amended): for each interactively resolved key, if the
environment variable is unset and user input arrives before the deadline,
the resolver stores the supplied value under that key, but returns Python
`None` to its caller rather than the supplied value. -/
theorem C1_store_and_return_none (env : Env) (s t : String)
    (hg : envLookup env "GTDBTK_DATA_PATH" = none)
    (hc : envLookup env "CONDA_ENV_PATH" = none) :
    get_gtdb_path env (some s) = .ok ⟨none, envSet env "GTDBTK_DATA_PATH" s, true⟩ ∧
    envLookup (envSet env "GTDBTK_DATA_PATH" s) "GTDBTK_DATA_PATH" = some s ∧
    get_conda_path env (some t) = .ok ⟨none, envSet env "CONDA_ENV_PATH" t, true⟩ ∧
    envLookup (envSet env "CONDA_ENV_PATH" t) "CONDA_ENV_PATH" = some t := by
  refine ⟨?_, envLookup_envSet .., ?_, envLookup_envSet ..⟩
  · unfold get_gtdb_path
    rw [hg]
  · unfold get_conda_path
    rw [hc]

/-- Closed instance of `C1_store_and_return_none` at the empty environment. -/
theorem C1_store_and_return_none_witness :
    get_gtdb_path [] (some "/data/gtdb") =
      .ok ⟨none, envSet [] "GTDBTK_DATA_PATH" "/data/gtdb", true⟩ ∧
    envLookup (envSet [] "GTDBTK_DATA_PATH" "/data/gtdb") "GTDBTK_DATA_PATH" =
      some "/data/gtdb" :=
  ⟨(C1_store_and_return_none [] "/data/gtdb" "/c" rfl rfl).1,
   (C1_store_and_return_none [] "/data/gtdb" "/c" rfl rfl).2.1⟩

/-! ## Claim C4 -/

/-- Claim C4: for each interactively resolved key with no persisted value and
no environment variable set, the prompt is guarded by a 20-second alarm
(`gtdbAlarmSeconds`/`condaAlarmSeconds`), and if no input arrives before the
deadline resolution fails with the timeout error (the `IOError` raised by the
`SIGALRM` handler) instead of blocking indefinitely. -/
theorem C4_timeout (p e : Env)
    (hpg : envLookup p "GTDBTK_DATA_PATH" = none)
    (heg : envLookup e "GTDBTK_DATA_PATH" = none)
    (hpc : envLookup p "CONDA_ENV_PATH" = none)
    (hec : envLookup e "CONDA_ENV_PATH" = none) :
    resolveGtdb p e none = .error (.resolutionTimeout "GTDBTK_DATA_PATH") ∧
    resolveConda p e none = .error (.resolutionTimeout "CONDA_ENV_PATH") ∧
    gtdbAlarmSeconds = 20 ∧ condaAlarmSeconds = 20 := by
  have h1 : envLookup (sourceEnv p e) "GTDBTK_DATA_PATH" = none := by
    rw [sourceEnv, envLookup_append_of_none p e _ hpg]; exact heg
  have h2 : envLookup (sourceEnv p e) "CONDA_ENV_PATH" = none := by
    rw [sourceEnv, envLookup_append_of_none p e _ hpc]; exact hec
  refine ⟨?_, ?_, rfl, rfl⟩
  · unfold resolveGtdb get_gtdb_path
    rw [h1]
  · unfold resolveConda get_conda_path
    rw [h2]

/-- Closed instance of `C4_timeout` at the empty store and environment. -/
theorem C4_timeout_witness :
    resolveGtdb [] [] none = .error (.resolutionTimeout "GTDBTK_DATA_PATH") ∧
    resolveConda [] [] none = .error (.resolutionTimeout "CONDA_ENV_PATH") :=
  ⟨(C4_timeout [] [] rfl rfl rfl rfl).1, (C4_timeout [] [] rfl rfl rfl rfl).2.1⟩

/-! ## Claim C5 -/

/-- Claim C5: whenever a value for a key has been persisted, resolution after
sourcing returns the persisted value without ever reaching the interactive
prompt (`prompted = false`), for every process environment — in particular
when the corresponding environment variable is unset — and for every input
availability. -/
theorem C5_persisted_precedence (p e : Env) (v w : String)
    (input1 input2 : Option String)
    (hg : envLookup p "GTDBTK_DATA_PATH" = some v)
    (hc : envLookup p "CONDA_ENV_PATH" = some w) :
    resolveGtdb p e input1 = .ok ⟨some v, sourceEnv p e, false⟩ ∧
    resolveConda p e input2 = .ok ⟨some w, sourceEnv p e, false⟩ := by
  have h1 : envLookup (sourceEnv p e) "GTDBTK_DATA_PATH" = some v :=
    envLookup_append_of_some p e _ v hg
  have h2 : envLookup (sourceEnv p e) "CONDA_ENV_PATH" = some w :=
    envLookup_append_of_some p e _ w hc
  constructor
  · unfold resolveGtdb get_gtdb_path
    rw [h1]
  · unfold resolveConda get_conda_path
    rw [h2]

/-- Closed instance of `C5_persisted_precedence`: persisted values, empty
process environment, no user input available. -/
theorem C5_persisted_precedence_witness :
    resolveGtdb [("GTDBTK_DATA_PATH", "/g"), ("CONDA_ENV_PATH", "/c")] [] none =
      .ok ⟨some "/g", sourceEnv [("GTDBTK_DATA_PATH", "/g"), ("CONDA_ENV_PATH", "/c")] [], false⟩ :=
  (C5_persisted_precedence [("GTDBTK_DATA_PATH", "/g"), ("CONDA_ENV_PATH", "/c")]
    [] "/g" "/c" none none rfl rfl).1

/-! ## Claim C10: str2bool -/

/-- The truthy strings accepted by `str2bool` (aviary.py line 93). -/
def str2boolTrueStrings : List String := ["yes", "true", "t", "y", "1"]

/-- The falsey strings accepted by `str2bool` (aviary.py line 95). -/
def str2boolFalseStrings : List String := ["no", "false", "f", "n", "0"]

/-- A value handed to `str2bool`: either already a Python bool, or the string
taken from the command line. -/
inductive ArgValue where
  | bool (b : Bool)
  | str (s : String)
  deriving DecidableEq, Repr

/-- `argparse.ArgumentTypeError` and the argparse mutually-exclusive-group
usage error ("argument A: not allowed with argument B"; the spec calls the
latter `ConflictingInput`). -/
inductive ArgparseError where
  | argumentTypeError (msg : String)
  | notAllowedWith (arg other : String)
  deriving DecidableEq, Repr

/-- aviary.py `str2bool` (lines 90-98): pass a bool through unchanged; map a
string through `v.lower()` against the two accepted lists; otherwise raise
`argparse.ArgumentTypeError("Boolean value expected.")`. -/
def str2bool (v : ArgValue) : Except ArgparseError ArgValue :=
  match v with
  | .bool b => .ok (.bool b)
  | .str s =>
    if s.toLower ∈ str2boolTrueStrings then .ok (.bool true)
    else if s.toLower ∈ str2boolFalseStrings then .ok (.bool false)
    else .error (.argumentTypeError "Boolean value expected.")

theorem str2bool_lists_disjoint (x : String)
    (h1 : x ∈ str2boolTrueStrings) (h2 : x ∈ str2boolFalseStrings) : False := by
  simp only [str2boolTrueStrings, List.mem_cons, List.not_mem_nil, or_false] at h1
  rcases h1 with rfl | rfl | rfl | rfl | rfl <;> exact absurd h2 (by decide)

/-- Claim C10: `str2bool` returns the input unchanged when it is already a
bool, returns `True` exactly when the lower-cased string is one of
`yes`/`true`/`t`/`y`/`1`, returns `False` exactly when it is one of
`no`/`false`/`f`/`n`/`0`, and raises `ArgumentTypeError` for every other
string. -/
theorem C10_str2bool :
    (∀ b : Bool, str2bool (.bool b) = .ok (.bool b)) ∧
    (∀ s : String,
      str2bool (.str s) = .ok (.bool true) ↔ s.toLower ∈ str2boolTrueStrings) ∧
    (∀ s : String,
      str2bool (.str s) = .ok (.bool false) ↔ s.toLower ∈ str2boolFalseStrings) ∧
    (∀ s : String,
      str2bool (.str s) = .error (.argumentTypeError "Boolean value expected.") ↔
        (s.toLower ∉ str2boolTrueStrings ∧ s.toLower ∉ str2boolFalseStrings)) := by
  refine ⟨fun b => rfl, fun s => ?_, fun s => ?_, fun s => ?_⟩ <;>
    by_cases h1 : s.toLower ∈ str2boolTrueStrings <;>
    by_cases h2 : s.toLower ∈ str2boolFalseStrings <;>
    simp [str2bool, h1, h2] <;>
    exact str2bool_lists_disjoint _ h1 h2

/-! ## Claim C3: resource-bound validation at materialization -/

/-- Materialization failure; the spec calls the resource-bound violation
`InvalidResourceBounds`. -/
inductive MatErr where
  | invalidResourceBounds (cores threads : Nat)
  deriving DecidableEq, Repr

/-- Modelled from the spec: `Processor.make_config` (aviary/modules/processor,
imported at aviary.py line 22) is not under src/.  §4.4 of the spec:
materializing a run configuration validates `max_cores >= max_threads`,
failing with `InvalidResourceBounds` (reported with the offending values)
otherwise. -/
def materialize (maxCores maxThreads : Nat) : Except MatErr Unit :=
  if maxCores < maxThreads then .error (.invalidResourceBounds maxCores maxThreads)
  else .ok ()

/-- Steps of the non-configure branch of `main`. -/
inductive RunEvent where
  | mkdirOutput
  | configMaterialized
  | spawnWorkflow
  deriving DecidableEq, Repr

/-- The non-configure branch of `main` (aviary.py lines 811-832): create the
output directory, materialize the run configuration (`processor.make_config`),
then spawn the external workflow engine (`processor.run_workflow`); a
materialization failure aborts before the spawn. -/
def runBranch (maxCores maxThreads : Nat) : List RunEvent × Option MatErr :=
  match materialize maxCores maxThreads with
  | .error err => ([.mkdirOutput], some err)
  | .ok _ => ([.mkdirOutput, .configMaterialized, .spawnWorkflow], none)

/-- Claim C3: materializing with `max_cores = 4 < max_threads = 8` fails with
`InvalidResourceBounds` and the external workflow process is never spawned;
with `max_cores = 16 >= max_threads = 8` materialization succeeds and the
run proceeds. -/
theorem C3_resource_bounds :
    runBranch 4 8 = ([.mkdirOutput], some (.invalidResourceBounds 4 8)) ∧
    RunEvent.spawnWorkflow ∉ (runBranch 4 8).1 ∧
    runBranch 16 8 = ([.mkdirOutput, .configMaterialized, .spawnWorkflow], none) := by
  refine ⟨rfl, ?_, rfl⟩
  decide

/-! ## Claim C7: --log target must not already exist -/

/-- The `Exception("File %s exists" % args.log)` raised at aviary.py line 778;
the spec calls it `LogTargetExists`. -/
inductive LogErr where
  | logTargetExists (path : String)
  deriving DecidableEq, Repr

/-- Steps of the logging setup. -/
inductive SetupEvent where
  | isfileCheck (path : String)
  | raiseExists (path : String)
  | basicConfig
  deriving DecidableEq, Repr

/-- aviary.py lines 776-786: `if args.log:` (a Python truthiness test — the
`False` default, modelled as `none`, and the empty string are falsey), then
`os.path.isfile(args.log)`, raising `Exception("File %s exists")` before
`logging.basicConfig` is ever called; otherwise `basicConfig` runs (with the
file target when one was given).  The filesystem is abstracted as the list of
existing file paths. -/
def setupLogging (log : Option String) (existingFiles : List String) :
    List SetupEvent × Option LogErr :=
  match log with
  | none => ([.basicConfig], none)
  | some path =>
    if path = "" then ([.basicConfig], none)
    else if path ∈ existingFiles then
      ([.isfileCheck path, .raiseExists path], some (.logTargetExists path))
    else ([.isfileCheck path, .basicConfig], none)

/-- Claim C7: for every invocation with `--log path` where `path` already
exists as a file, setup fails with the file-exists error before any logging
configuration is applied (`basicConfig` never runs), so the existing file is
never overwritten. -/
theorem C7_log_target_exists (path : String) (fs : List String)
    (hne : path ≠ "") (hmem : path ∈ fs) :
    setupLogging (some path) fs =
      ([.isfileCheck path, .raiseExists path], some (.logTargetExists path)) ∧
    SetupEvent.basicConfig ∉ (setupLogging (some path) fs).1 := by
  simp [setupLogging, hne, hmem]

/-- Closed instance of `C7_log_target_exists` for `--log run.log` with
`run.log` present on disk. -/
theorem C7_log_target_exists_witness :
    setupLogging (some "run.log") ["run.log"] =
      ([.isfileCheck "run.log", .raiseExists "run.log"],
        some (.logTargetExists "run.log")) :=
  (C7_log_target_exists "run.log" ["run.log"] (by decide) (by decide)).1

/-! ## Claim C9: the configure branch and the missing enrichm flag -/

/-- The `argparse.Namespace` produced by parsing a `configure` invocation:
exactly the attributes registered on the main parser and the `configure`
subparser.  The `--enrichm-db-path` registration (aviary.py lines 745-750) is
commented out, so the namespace has no `enrichm_db_path` attribute.  Fields:
`log` and `verbosity` come from the main parser; `conda`, `gtdb`, `busco`,
`checkm2`, `eggnog` hold the parsed `--conda-prefix`, `--gtdb-path`,
`--busco-db-path`, `--checkm2-db-path`, `--eggnog-db-path` values (all
registered with `required=False`, so they default to `None`). -/
structure ConfigureArgs where
  log : Option String
  verbosity : Int
  conda : Option String
  gtdb : Option String
  busco : Option String
  checkm2 : Option String
  eggnog : Option String
  deriving DecidableEq, Repr

/-- Python attribute access `getattr(args, attr)` on the parsed `configure`
namespace; `.error ()` is an `AttributeError`. -/
def configureGetattr (a : ConfigureArgs) : String → Except Unit (Option String)
  | "conda_prefix" => .ok a.conda
  | "gtdb_path" => .ok a.gtdb
  | "busco_db_path" => .ok a.busco
  | "checkm2_db_path" => .ok a.checkm2
  | "eggnog_db_path" => .ok a.eggnog
  | _ => .error ()

/-- The attribute accesses performed by the configure branch (aviary.py
lines 791-809), in source order, paired with the environment-variable key
each one is persisted under by `Config.set_db_path`. -/
def configureSteps : List (String × String) :=
  [("conda_prefix", "CONDA_ENV_PATH"),
   ("gtdb_path", "GTDBTK_DATA_PATH"),
   ("busco_db_path", "BUSCO_DB"),
   ("enrichm_db_path", "ENRICHM_DB"),
   ("checkm2_db_path", "CHECKM2DB"),
   ("eggnog_db_path", "EGGNOG_DATA_DIR")]

/-- How `main` can crash before or inside the configure branch. -/
inductive Crash where
  | attributeError (attr : String)
  | keyError (verbosity : Int)
  | logTarget (path : String)
  deriving DecidableEq, Repr

/-- The configure branch: run each `if args.<attr> is not None:
Config.set_db_path(...)` in order; an `AttributeError` on an unregistered
attribute aborts the remaining steps.  Returns the persisted
(environment-key, value) pairs and the crash, if any. -/
def runConfigureSteps (a : ConfigureArgs) :
    List (String × String) → List (String × String) × Option Crash
  | [] => ([], none)
  | (attr, key) :: rest =>
    match configureGetattr a attr with
    | .error _ => ([], some (.attributeError attr))
    | .ok none => runConfigureSteps a rest
    | .ok (some v) =>
      let r := runConfigureSteps a rest
      ((key, v) :: r.1, r.2)

/-- The keys of the `debug` verbosity dict (aviary.py lines 41-45). -/
def debugKeys : List Int := [1, 2, 3, 4, 5]

/-- aviary.py lines 776-809 for a parsed `configure` invocation: the
`--log` truthiness/`isfile` check (raising before anything else when the
target exists), then `logging.basicConfig(level=debug[args.verbosity], ...)`
(a `KeyError` when the verbosity is not a key of the `debug` dict), then the
configure branch. -/
def postParseConfigure (a : ConfigureArgs) (existingFiles : List String) :
    List (String × String) × Option Crash :=
  match a.log with
  | some p =>
    if p ≠ "" ∧ p ∈ existingFiles then ([], some (.logTarget p))
    else if a.verbosity ∈ debugKeys then runConfigureSteps a configureSteps
    else ([], some (.keyError a.verbosity))
  | none =>
    if a.verbosity ∈ debugKeys then runConfigureSteps a configureSteps
    else ([], some (.keyError a.verbosity))

/-- Claim C9 counterexample: `aviary --verbosity 7 configure` parses
successfully (`--verbosity` is a plain `type=int` flag with no `choices`
restriction), yet crashes with a `KeyError` in `debug[args.verbosity]` before
any attribute access on `args.enrichm_db_path` is reached — so not every
configure invocation that gets past argument parsing reaches that access. -/
theorem C9_counterexample :
    postParseConfigure ⟨none, 7, none, none, none, none, none⟩ [] =
      ([], some (.keyError 7)) ∧
    some (Crash.keyError 7) ≠ some (Crash.attributeError "enrichm_db_path") := by
  exact ⟨rfl, by decide⟩

/-- The values the configure branch persists before the crash: exactly the
supplied `--conda-prefix`, `--gtdb-path` and `--busco-db-path` values, in
order. -/
def persistedBeforeCrash (a : ConfigureArgs) : List (String × String) :=
  (match a.conda with | some v => [("CONDA_ENV_PATH", v)] | none => []) ++
  (match a.gtdb with | some v => [("GTDBTK_DATA_PATH", v)] | none => []) ++
  (match a.busco with | some v => [("BUSCO_DB", v)] | none => [])

/-- Claim C9 (amended): every configure invocation that gets past argument
parsing *and the logging setup* (the `--log` target is fresh and the
verbosity is a valid level) reaches the attribute access on
`args.enrichm_db_path`, which raises an unhandled `AttributeError`; the
supplied conda-prefix, gtdb and busco values are persisted before the crash,
while `--checkm2-db-path` / `--eggnog-db-path` values are never persisted. -/
theorem C9_enrichm_attribute_error (a : ConfigureArgs) (fs : List String)
    (hv : a.verbosity ∈ debugKeys)
    (hlog : ∀ p, a.log = some p → p = "" ∨ p ∉ fs) :
    postParseConfigure a fs =
      (persistedBeforeCrash a, some (.attributeError "enrichm_db_path")) ∧
    (∀ v, ("CHECKM2DB", v) ∉ persistedBeforeCrash a) ∧
    (∀ v, ("EGGNOG_DATA_DIR", v) ∉ persistedBeforeCrash a) := by
  obtain ⟨log, vb, conda, gtdb, busco, ck, eg⟩ := a
  have hsteps :
      runConfigureSteps ⟨log, vb, conda, gtdb, busco, ck, eg⟩ configureSteps =
        (persistedBeforeCrash ⟨log, vb, conda, gtdb, busco, ck, eg⟩,
          some (.attributeError "enrichm_db_path")) := by
    rcases conda with _ | c <;> rcases gtdb with _ | g <;> rcases busco with _ | b <;>
      simp [runConfigureSteps, configureSteps, configureGetattr, persistedBeforeCrash]
  refine ⟨?_, ?_, ?_⟩
  · rcases log with _ | p
    · simpa [postParseConfigure, hv] using hsteps
    · rcases hlog p rfl with hp | hp <;>
        · subst_eqs <;> simp_all [postParseConfigure, hv, hsteps]
  · intro v
    rcases conda with _ | c <;> rcases gtdb with _ | g <;> rcases busco with _ | b <;>
      simp [persistedBeforeCrash]
  · intro v
    rcases conda with _ | c <;> rcases gtdb with _ | g <;> rcases busco with _ | b <;>
      simp [persistedBeforeCrash]

/-- Closed instance of `C9_enrichm_attribute_error`: a fully supplied
configure invocation at default verbosity. -/
theorem C9_enrichm_attribute_error_witness :
    postParseConfigure ⟨none, 4, some "/c", some "/g", some "/b", some "/k", some "/e"⟩ [] =
      ([("CONDA_ENV_PATH", "/c"), ("GTDBTK_DATA_PATH", "/g"), ("BUSCO_DB", "/b")],
        some (.attributeError "enrichm_db_path")) :=
  (C9_enrichm_attribute_error ⟨none, 4, some "/c", some "/g", some "/b", some "/k", some "/e"⟩
    [] (by decide) (fun p hp => by cases hp)).1

/-! ## Claim C6: mutually exclusive short-read inputs -/

/-- The reusable argument groups of aviary.py (lines 129-499), by the name of
the `argparse.ArgumentParser` object each is stored in. -/
inductive Group where
  | base
  | qc
  | shortRead
  | longRead
  | annot
  | binning
  | mag
  | isolateG
  | clusterG
  deriving DecidableEq, Repr

/-- The `subparsers.add_parser` calls of `main` in source order (aviary.py
lines 504-722), each with its `parents` list.  Note `cluster` is registered
twice (lines 504 and 626); argparse stores subparsers in a dict keyed by
name, so the second registration shadows the first. -/
def subcommandDefs : List (String × List Group) :=
  [("cluster", [.shortRead, .longRead, .base]),
   ("assemble", [.qc, .shortRead, .longRead, .binning, .base]),
   ("recover", [.qc, .shortRead, .longRead, .binning, .base]),
   ("annotate", [.mag, .annot, .base]),
   ("genotype", [.mag, .shortRead, .longRead, .base]),
   ("cluster", [.base, .clusterG]),
   ("viral", [.mag, .shortRead, .longRead, .base]),
   ("complete", [.shortRead, .longRead, .binning, .annot, .base]),
   ("isolate", [.qc, .shortRead, .longRead, .isolateG, .binning, .base]),
   ("configure", [])]

/-- Look up the effective parser for a subcommand name: dict semantics, last
registration wins. -/
def lookupParser (name : String) : Option (List Group) :=
  (subcommandDefs.reverse.find? (fun sc => sc.1 == name)).map (fun sc => sc.2)

/-- Aliases of the `-1` (pe-1) action, a member of `read_group_exclusive`. -/
def pe1Aliases : List String :=
  ["-1", "--pe-1", "--paired-reads-1", "--paired_reads_1", "--pe1"]

/-- Aliases of the `-i` (interleaved) action, a member of `read_group_exclusive`. -/
def interleavedAliases : List String := ["-i", "--interleaved"]

/-- Aliases of the `-c` (coupled) action, a member of `read_group_exclusive`. -/
def coupledAliases : List String := ["-c", "--coupled"]

/-- Display name argparse uses for the `-1` (pe-1) action. -/
def pe1Name : String := "-1/--pe-1/--paired-reads-1/--paired_reads_1/--pe1"

/-- Display name argparse uses for the `-i` (interleaved) action. -/
def interleavedName : String := "-i/--interleaved"

/-- Display name argparse uses for the `-c` (coupled) action. -/
def coupledName : String := "-c/--coupled"

/-- Maps a supplied command-line token to the member of
`read_group_exclusive` (aviary.py line 272) it selects, if any.  The pe-2 action
belongs to `short_read_group` but was added outside the exclusive group
(line 284), so it maps to `none`, as do value tokens. -/
def exclusiveActionOf (tok : String) : Option String :=
  if tok ∈ pe1Aliases then some pe1Name
  else if tok ∈ interleavedAliases then some interleavedName
  else if tok ∈ coupledAliases then some coupledName
  else none

/-- argparse mutually-exclusive-group enforcement, as run at parse time:
scanning the supplied tokens left to right, encountering a member of the
group after a *different* member has already been seen aborts parsing with
"argument A: not allowed with argument B", naming both actions. -/
def mutexScan (seen : Option String) : List String → Option (String × String)
  | [] => none
  | tok :: rest =>
    match exclusiveActionOf tok with
    | none => mutexScan seen rest
    | some a =>
      match seen with
      | none => mutexScan (some a) rest
      | some prev => if prev = a then mutexScan seen rest else some (a, prev)

/-- Outcome of parsing one subcommand invocation. -/
inductive CliOutcome where
  | conflictExit (exitCode : Nat) (arg other : String)
  | dispatched
  | unknownSubcommand
  deriving DecidableEq, Repr

/-- Parse-time behaviour of one subcommand invocation: when the effective
parser inherits `short_read_group`, the exclusive-group scan runs; a conflict
makes argparse print the usage error and `exit(2)`, so no run is ever
started (`dispatched` is never reached). -/
def cliParse (sub : String) (tokens : List String) : CliOutcome :=
  match lookupParser sub with
  | none => .unknownSubcommand
  | some parents =>
    if Group.shortRead ∈ parents then
      match mutexScan none tokens with
      | some (a, b) => .conflictExit 2 a b
      | none => .dispatched
    else .dispatched

/-- Claim C6: for every subcommand whose effective parser accepts short-read
input, supplying both `--coupled a b` and `--interleaved c` in one invocation
fails at parse time with the mutually-exclusive-input error naming both
offending actions, the process exits with the non-zero status 2, and no run
is started. -/
theorem C6_conflicting_input (sub : String) (parents : List Group)
    (hsub : lookupParser sub = some parents)
    (hsr : Group.shortRead ∈ parents) :
    cliParse sub ["--coupled", "a", "b", "--interleaved", "c"] =
      .conflictExit 2 interleavedName coupledName ∧
    (2 : Nat) ≠ 0 ∧
    cliParse sub ["--coupled", "a", "b", "--interleaved", "c"] ≠ .dispatched := by
  have hscan : mutexScan none ["--coupled", "a", "b", "--interleaved", "c"] =
      some (interleavedName, coupledName) := by decide
  refine ⟨?_, by decide, ?_⟩ <;> simp [cliParse, hsub, hsr, hscan]

/-- Closed instance of `C6_conflicting_input` for the `assemble`
subcommand. -/
theorem C6_conflicting_input_witness :
    cliParse "assemble" ["--coupled", "a", "b", "--interleaved", "c"] =
      .conflictExit 2 interleavedName coupledName :=
  (C6_conflicting_input "assemble"
    [.qc, .shortRead, .longRead, .binning, .base] (by decide) (by decide)).1

/-! ## Claim C2: schema defaults are resolved before the help check -/

/-- Observable steps of `main` before dispatch. -/
inductive MainEvent where
  | promptAttempt (key : String)
  | printHelp
  | parseAndDispatch
  deriving DecidableEq, Repr

/-- Modelled from the spec: `Config.get_software_db_path` (evaluated for flag
defaults at aviary.py lines 171, 346, 353 and 360, while the argument groups
are being built) is not under src/.  §4.3 of the spec: resolution checks the
(sourced) environment first and falls back to the interactive prompt; per the
§9 design note the source prompts for `GTDBTK_DATA_PATH` and `CONDA_ENV_PATH`
specifically — delegating to the src/ functions `get_gtdb_path` and
`get_conda_path` — and not for the other database keys. -/
def get_software_db_path (env : Env) (key : String) (input : Option String) :
    Except ResErr (Option String × Env × Bool) :=
  if key = "GTDBTK_DATA_PATH" then
    (get_gtdb_path env input).map (fun r => (r.ret, r.env, r.prompted))
  else if key = "CONDA_ENV_PATH" then
    (get_conda_path env input).map (fun r => (r.ret, r.env, r.prompted))
  else .ok (envLookup env key, env, false)

/-- The resolver-dependent flag defaults, in the order the source evaluates
them while building the argument groups: `--conda-prefix` (line 171), then
`--enrichm-db-path` (line 346), `--gtdb-path` (line 353), `--eggnog-db-path`
(line 360). -/
def schemaDefaultKeys : List String :=
  ["CONDA_ENV_PATH", "ENRICHM_DB", "GTDBTK_DATA_PATH", "EGGNOG_DATA_DIR"]

/-- Building the flag schemas: every `Config.get_software_db_path` default is
evaluated eagerly, before `main` ever looks at `sys.argv`. -/
def buildSchemas (env : Env) (input : String → Option String) :
    Except ResErr (Env × List MainEvent) :=
  schemaDefaultKeys.foldlM
    (fun acc key => do
      let r ← get_software_db_path acc.1 key (input key)
      pure (r.2.1, acc.2 ++ if r.2.2 then [MainEvent.promptAttempt key] else []))
    (env, [])

/-- The test at aviary.py line 770: `len(sys.argv) == 1 or sys.argv[1] == "-h"
or sys.argv[1] == "--help"`; `argv` here is `sys.argv` without the program
name. -/
def isHelpInvocation (argv : List String) : Bool :=
  argv.isEmpty || argv.head? == some "-h" || argv.head? == some "--help"

/-- `main` up to dispatch (aviary.py lines 100-773): source the persisted
store, build every subcommand schema (eagerly evaluating the resolver
defaults), and only then test whether the invocation is a bare/help one. -/
def mainTrace (persisted procEnv : Env) (input : String → Option String)
    (argv : List String) : Except ResErr (List MainEvent) := do
  let r ← buildSchemas (sourceEnv persisted procEnv) input
  if isHelpInvocation argv then pure (r.2 ++ [.printHelp])
  else pure (r.2 ++ [.parseAndDispatch])

/-- Claim C2 is violated by the code: on a pure `--help` invocation with
nothing persisted and `CONDA_ENV_PATH`/`GTDBTK_DATA_PATH` unset, the
interactive prompt is attempted (twice) while the flag schemas are being
built, before the help check at line 770 ever runs — printing help appears in
the trace only after the prompt attempts. -/
theorem C2_help_invocation_prompts :
    isHelpInvocation ["--help"] = true ∧
    mainTrace [] [] (fun _ => some "/tmp/db") ["--help"] =
      .ok [.promptAttempt "CONDA_ENV_PATH", .promptAttempt "GTDBTK_DATA_PATH",
           .printHelp] ∧
    MainEvent.promptAttempt "CONDA_ENV_PATH" ∈
      [MainEvent.promptAttempt "CONDA_ENV_PATH",
       MainEvent.promptAttempt "GTDBTK_DATA_PATH", MainEvent.printHelp] := by
  refine ⟨rfl, rfl, ?_⟩
  simp

/-! ## Claim C8: the custom help formatter -/

/-- Python values occurring as argparse defaults in aviary.py.  `suppress` is
the `argparse.SUPPRESS` sentinel; list defaults (none occur in this program,
but `_get_help_string` compares against `[]`) are modelled as lists of
strings. -/
inductive PyVal where
  | none
  | bool (b : Bool)
  | int (n : Int)
  | str (s : String)
  | list (xs : List String)
  | suppress
  deriving DecidableEq, Repr

/-- Python `==` on the values that occur as argparse defaults: `0 == False`
and `1 == True` hold across types; other cross-type comparisons are
unequal. -/
def pyEq : PyVal → PyVal → Bool
  | .none, .none => true
  | .bool a, .bool b => a == b
  | .bool a, .int n => (if a then (1 : Int) else 0) == n
  | .int n, .bool a => n == (if a then (1 : Int) else 0)
  | .int m, .int n => m == n
  | .str a, .str b => a == b
  | .list a, .list b => a == b
  | .suppress, .suppress => true
  | _, _ => false

/-- The `nargs` of an argparse action; `optional` is `"?"`, `zeroOrMore` is
`"*"`, and `subcommands` is the internal sub-parsers action. -/
inductive Nargs where
  | unspecified
  | optional
  | zeroOrMore
  | exactly (n : Nat)
  | subcommands
  deriving DecidableEq, Repr

/-- An argparse action as the help formatter sees it: its option strings
(empty for positionals), its help text (`Option.none` models
`help=argparse.SUPPRESS`), its default, and its `nargs`. -/
structure Action where
  optionStrings : List String
  help : Option String
  default : PyVal
  nargs : Nargs
  deriving DecidableEq, Repr

def beginsWithChars : List Char → List Char → Bool
  | [], _ => true
  | _ :: _, [] => false
  | p :: ps, c :: cs => p == c && beginsWithChars ps cs

def containsChars (pat : List Char) : List Char → Bool
  | [] => beginsWithChars pat []
  | c :: cs => beginsWithChars pat (c :: cs) || containsChars pat cs

/-- Python `"%(default)" in action.help` (aviary.py line 844). -/
def containsDefaultRef (h : String) : Bool :=
  containsChars "%(default)".data h.data

/-- The negation of the guard `action.default != "" and action.default != []
and action.default != None and action.default != False` from
`CustomHelpFormatter._get_help_string` (aviary.py lines 845-848), under
Python equality. -/
def pyFalsey (v : PyVal) : Bool :=
  pyEq v (.str "") || pyEq v (.list []) || pyEq v .none || pyEq v (.bool false)

/-- The literal `_get_help_string` appends; argparse later substitutes the
`%(default)s` placeholder with the default value of the action when rendering. -/
def defaultSuffix : String := " (default: %(default)s)"

/-- aviary.py `CustomHelpFormatter._get_help_string` (lines 842-861), applied
to an action whose help is the string `h`: skip when the help already
references `%(default)`, when the default is falsey under Python equality,
when the default is the `argparse.SUPPRESS` sentinel, or when the action is a
positional whose `nargs` is not `"?"` or `"*"`; otherwise append the default
suffix (to the first line when the help is multi-line). -/
def getHelpString (a : Action) (h : String) : String :=
  if containsDefaultRef h then h
  else if pyFalsey a.default then h
  else if a.default == PyVal.suppress then h
  else if !a.optionStrings.isEmpty || a.nargs == Nargs.optional ||
          a.nargs == Nargs.zeroOrMore then
    if '\n' ∈ h.data then
      match h.splitOn "\n" with
      | [] => h
      | l0 :: rest => String.intercalate "\n" ((l0 ++ defaultSuffix) :: rest)
    else h ++ defaultSuffix
  else h

/-- Help as rendered: actions registered with `help=argparse.SUPPRESS` are
omitted from help output entirely; every other help text goes
through `_get_help_string`. -/
def renderedHelp (a : Action) : Option String :=
  a.help.map (getHelpString a)

/-- The condition of the amended claim for the suffix: help present (not
suppressed), default neither one of the falsey sentinels nor the
`argparse.SUPPRESS` sentinel. -/
def suffixCond (a : Action) : Bool :=
  a.help.isSome && !pyFalsey a.default && !(a.default == PyVal.suppress)

theorem renderedHelp_flag (os : List String) (h : String) (d : PyVal) (n : Nargs)
    (h1 : containsDefaultRef h = false)
    (h2 : '\n' ∉ h.data)
    (h3 : os.isEmpty = false) :
    renderedHelp ⟨os, some h, d, n⟩ =
      if suffixCond ⟨os, some h, d, n⟩ then some (h ++ defaultSuffix)
      else some h := by
  by_cases hf : pyFalsey d
  · simp [renderedHelp, getHelpString, suffixCond, h1, hf]
  · by_cases hs : d == PyVal.suppress
    · simp [renderedHelp, getHelpString, suffixCond, h1, hf, hs]
    · simp [renderedHelp, getHelpString, suffixCond, h1, h2, h3, hf, hs]

/-- Every `add_argument` action registered in aviary.py, in source order:
the main parser (the `--version` action class sets `default=argparse.SUPPRESS`)
and its sub-parsers action, then the reusable groups (base, qc, short-read,
long-read, annotation, binning, mag, isolate, cluster), then the
subcommand-specific actions and the `configure` flags.  Adjacent Python
string literals concatenate without separators, which is reproduced verbatim
in the help texts.  The four resolver-dependent defaults (evaluated from
`Config.get_software_db_path` at schema-build time) are parameters. -/
def programActions (dConda dEnrichm dGtdb dEggnog : PyVal) : List Action :=
  [⟨["--version"], some "Show version information.", .suppress, .unspecified⟩,
   ⟨["--verbosity"], some "1 = critical, 2 = error, 3 = warning, 4 = info, 5 = debug. Default = 4 (logging)", .int 4, .unspecified⟩,
   ⟨["--log"], some "Output logging information to file", .bool false, .unspecified⟩,
   ⟨[], some "--", .none, .subcommands⟩,
   ⟨["-t", "--max-threads", "--max_threads"], some "Maximum number of threads given to any particular process", .int 8, .unspecified⟩,
   ⟨["-p", "--pplacer-threads", "--pplacer_threads"], none, .int 8, .unspecified⟩,
   ⟨["-n", "--n-cores", "--n_cores"], some "Maximum number of cores available for use. Must be >= to max_threads", .int 16, .unspecified⟩,
   ⟨["-m", "--max-memory", "--max_memory"], some "Maximum memory for available usage in Gigabytes", .int 250, .unspecified⟩,
   ⟨["-o", "--output"], some "Output directory", .str "./", .unspecified⟩,
   ⟨["--conda-prefix", "--conda_prefix"], some "Path to the location of installed conda environments, or where to install new environments", dConda, .unspecified⟩,
   ⟨["--dry-run", "--dry_run", "--dryrun"], some "Perform snakemake dry run, tests workflow order and conda environments", .bool false, .optional⟩,
   ⟨["--conda-frontend", "--conda_frontend"], some "Which conda frontend to use, mamba is faster but harder to debug. Switch this to conda If experiencing problems installing environments", .str "mamba", .unspecified⟩,
   ⟨["--clean"], some "Clean up all temporary files. This will remove most BAM files and any FASTQ files generated from read filtering. Setting this to False is the equivalent of the --notempoption in snakemake. Useful for when running only part of a workflow as it avoidsdeleting files that would likely be needed in later parts of the workflow.NOTE: Not cleaning makes reruns faster but will incur the wrath of your sysadmin", .bool true, .optional⟩,
   ⟨["--build"], some "Build conda environments and then exits. Equivalent to \"--snakemake-cmds \x27--conda-create-envs-only True \x27 \"", .none, .optional⟩,
   ⟨["--snakemake-cmds"], some "Additional commands to supplied to snakemake in the form of a single stringe.g. \"--print-compilation True\". NOTE: Most commands in snakemake -h are valid but some commands may clash with commands aviary directly supplies to snakemake. Please makesure your additional commands don\x27t clash.", .str "", .unspecified⟩,
   ⟨["-g", "--gold-standard-assembly", "--gold_standard_assembly"], some "Gold standard assembly to compare either the Aviary assembly or a given input assembly against", .str "none", .unspecified⟩,
   ⟨["-r", "--reference-filter", "--reference_filter"], some "Reference filter file to aid in the assembly", .str "none", .exactly 1⟩,
   ⟨["--min-read-size", "--min_read_size"], some "Minimum long read size when filtering using Filtlong", .int 1000, .unspecified⟩,
   ⟨["--min-mean-q", "--min_mean_q"], some "Minimum mean quality threshold", .int 80, .unspecified⟩,
   ⟨["--keep-percent", "--keep_percent"], some "Percentage of reads passing quality thresholds kept by filtlong", .int 100, .unspecified⟩,
   ⟨["-1", "--pe-1", "--paired-reads-1", "--paired_reads_1", "--pe1"], some "A space separated list of forwards read files to use for the binning processNOTE: If performing assembly and multiple files are provided then only the first file will be used for assembly.", .str "none", .zeroOrMore⟩,
   ⟨["-2", "--pe-2", "--paired-reads-2", "--paired_reads_2", "--pe2"], some "A space separated list of forwards read files to use for the binning processNOTE: If performing assembly and multiple files are provided then only the first file will be used for assembly.", .str "none", .zeroOrMore⟩,
   ⟨["-i", "--interleaved"], some "A space separated list of interleaved read files for the binning process NOTE: If performing assembly and multiple files are provided then only the first file will be used for assembly.", .str "none", .zeroOrMore⟩,
   ⟨["-c", "--coupled"], some "Forward and reverse read files in a coupled space separated list. NOTE: If performing assembly and multiple files are provided then only the first two files will be used for assembly.", .str "none", .zeroOrMore⟩,
   ⟨["-l", "--longreads", "--long-reads", "--long_reads"], some "A space separated list of interleaved read files for the binning process. NOTE: If performing assembly and multiple long read files are provided, then only the first file is used for assembly. ", .str "none", .zeroOrMore⟩,
   ⟨["-z", "--longread-type", "--longread_type", "--long_read_type", "--long-read-type"], some "Whether the sequencing platform and technology for the longreads. \"rs\" for PacBio RSII, \"sq\" for PacBio Sequel, \"ccs\" for PacBio CCS reads, \"ont\" for Oxford Nanopore and \"ont_hq\" for Oxford Nanopore high quality reads (Guppy5+ or Q20)", .str "ont", .exactly 1⟩,
   ⟨["--enrichm-db-path", "--enrichm_db_path"], some "Path to the local EnrichM Database files", dEnrichm, .unspecified⟩,
   ⟨["--gtdb-path", "--gtdb_path"], some "Path to the local gtdb database files", dGtdb, .unspecified⟩,
   ⟨["--eggnog-db-path", "--eggnog_db_path"], some "Path to the local eggnog database files", dEggnog, .unspecified⟩,
   ⟨["-s", "--min-contig-size", "--min_contig_size"], some "Minimum contig size in base pairs to be considered for binning", .int 1500, .unspecified⟩,
   ⟨["-b", "--min-bin-size", "--min_bin_size"], some "Minimum bin size in base pairs for a MAG", .int 200000, .unspecified⟩,
   ⟨["-d", "--genome-fasta-directory", "--genome_fasta_directory"], some "Directory containing MAGs to be annotated", .none, .unspecified⟩,
   ⟨["-x", "--fasta-extension", "--fasta_extension"], some "File extension of fasta files in --genome-fasta-directory", .str "fna", .unspecified⟩,
   ⟨["--guppy-model", "--guppy_model"], some "The guppy model used by medaka to perform polishing", .str "r941_min_high_g360", .exactly 1⟩,
   ⟨["--genome-size", "--genome_size"], some "Approximate size of the isolate genome to be assembled", .int 5000000, .exactly 1⟩,
   ⟨["--previous-runs", "--previous_runs"], some "The paths to the previous finished runs of Aviary. Must contain the bins/checkm.out and bins/final_binsoutputs", .none, .zeroOrMore⟩,
   ⟨["--ani"], some "Overall ANI level to dereplicate at with Galah.", .str "0.97", .unspecified⟩,
   ⟨["--precluster-ani", "--precluster_ani"], some "Require at least this dashing-derived ANI for preclustering and to avoid FastANI on distant lineages within preclusters.", .str "0.95", .unspecified⟩,
   ⟨["--precluster-method", "--precluster_method"], some "method of calculating rough ANI for dereplication. \x27dashing\x27 for HyperLogLog, \x27finch\x27 for finch MinHash.", .str "dashing", .unspecified⟩,
   ⟨["--min-completeness", "--min_completeness"], some "Ignore genomes with less completeness than this percentage.", .str "70", .unspecified⟩,
   ⟨["--max-contamination", "--max_contamination"], some "Ignore genomes with more contamination than this percentage.", .str "10", .unspecified⟩,
   ⟨["-w", "--workflow"], some "Main workflow to run", .str "cluster_samples", .unspecified⟩,
   ⟨["-w", "--workflow"], some "Main workflow to run", .str "complete_assembly", .unspecified⟩,
   ⟨["-a", "--assembly"], some "FASTA file containing scaffolded contigs of the metagenome assembly", .none, .exactly 1⟩,
   ⟨["-w", "--workflow"], some "Main workflow to run", .str "recover_mags", .unspecified⟩,
   ⟨["--checkm2-db-path", "--checkm2_db_path"], none, .none, .unspecified⟩,
   ⟨["-w", "--workflow"], some "Main workflow to run", .str "complete_annotation", .unspecified⟩,
   ⟨["-w", "--workflow"], some "Main workflow to run", .str "create_webpage_genotype", .unspecified⟩,
   ⟨["-w", "--workflow"], some "Main workflow to run", .str "complete_cluster", .unspecified⟩,
   ⟨["-w", "--workflow"], some "Main workflow to run", .str "create_webpage_genotype", .unspecified⟩,
   ⟨["-w", "--workflow"], some "Main workflow to run", .str "complete_workflow", .unspecified⟩,
   ⟨["-w", "--workflow"], some "Main workflow to run", .str "create_webpage_assemble", .unspecified⟩,
   ⟨["--conda-prefix", "--conda_prefix"], some "Path to the location of installed conda environments, or where to install new environments", .none, .unspecified⟩,
   ⟨["--gtdb-path", "--gtdb_path"], some "Path to the local gtdb database files", .none, .unspecified⟩,
   ⟨["--busco-db-path", "--busco_db_path"], some "Path to the local BUSCO database files", .none, .unspecified⟩,
   ⟨["--checkm2-db-path", "--checkm2_db_path"], none, .none, .unspecified⟩,
   ⟨["--eggnog-db-path", "--eggnog_db_path"], some "Path to the local eggnog database files", .none, .unspecified⟩]

/-- Claim C8 counterexample: the `--version` flag has
`default = argparse.SUPPRESS` (set by the argparse `version` action class),
which is none of the falsey sentinels of the claim, and its help text is not
suppressed — yet its rendered help carries no "(default: ...)" suffix,
because `_get_help_string` separately skips defaults that are the SUPPRESS
sentinel. -/
theorem C8_counterexample :
    (⟨["--version"], some "Show version information.", PyVal.suppress,
        Nargs.unspecified⟩ : Action) ∈
      programActions PyVal.none PyVal.none PyVal.none PyVal.none ∧
    pyFalsey PyVal.suppress = false ∧
    (some "Show version information." : Option String).isSome = true ∧
    renderedHelp ⟨["--version"], some "Show version information.", .suppress,
        .unspecified⟩ = some "Show version information." ∧
    containsChars " (default:".data "Show version information.".data = false := by
  refine ⟨?_, by decide, by decide, by decide, by decide⟩
  simp only [programActions]
  exact List.mem_cons_self _ _

/-- Claim C8 (amended): in rendered help, for every registered flag, the
literal default suffix is appended exactly when the help text of the flag is not
suppressed and its default is neither one of the falsey sentinels
(`""`, `[]`, `None`, `False`, under Python equality) nor the
`argparse.SUPPRESS` sentinel (the `--version` case); this holds whatever
values the four resolver-dependent defaults took. -/
theorem C8_default_suffix (dConda dEnrichm dGtdb dEggnog : PyVal) (a : Action)
    (ha : a ∈ programActions dConda dEnrichm dGtdb dEggnog) :
    renderedHelp a =
      if suffixCond a then some (a.help.getD "" ++ defaultSuffix) else a.help := by
  simp only [programActions, List.mem_cons, List.not_mem_nil, or_false] at ha
  rcases ha with rfl | rfl | rfl | rfl | rfl | rfl | rfl | rfl | rfl | rfl | rfl |
    rfl | rfl | rfl | rfl | rfl | rfl | rfl | rfl | rfl | rfl | rfl | rfl | rfl |
    rfl | rfl | rfl | rfl | rfl | rfl | rfl | rfl | rfl | rfl | rfl | rfl | rfl |
    rfl | rfl | rfl | rfl | rfl | rfl | rfl | rfl | rfl | rfl | rfl | rfl | rfl |
    rfl | rfl | rfl | rfl | rfl | rfl | rfl <;>
    first
      | decide
      | exact renderedHelp_flag _ _ _ _ (by decide) (by decide) (by decide)

/-- Closed instance of `C8_default_suffix` at the `--max-memory` flag: its
help gains the default suffix. -/
theorem C8_default_suffix_witness :
    renderedHelp ⟨["-m", "--max-memory", "--max_memory"],
        some "Maximum memory for available usage in Gigabytes", PyVal.int 250,
        Nargs.unspecified⟩ =
      some ("Maximum memory for available usage in Gigabytes" ++ defaultSuffix) :=
  C8_default_suffix PyVal.none PyVal.none PyVal.none PyVal.none _ (by decide)

end Aviary
